import Mathlib

/-!
Shallow embedding of `custom_components/xiaomi_miio_fan/fan_1c.py`, the
device adapter for the Xiaomi Mi Smart Pedestal Fan DMaker 1C.

The adapter consists of a static property-mapping table `_MAPPING`, a
status container `FanStatus1C` wrapping a Python dict of raw values, and
the `Fan1C` device class whose setters forward validated values to the
transport via `set_property` and whose `status` method builds the dict
from one batched `get_properties_for_mapping` response.

Modelling choices:
- Python runtime values that flow through this code are `PyVal`
  (None, bool, int, str).
- The Python dict `data` is modelled by its lookup function
  (`PyDict`): `d k = some v` means key `k` is present with value `v`;
  `d k = Option.none` means a subscript access `data[k]` raises KeyError.
  `FanStatus1C` accessors therefore return `Option _`, where `Option.none`
  models a raised KeyError and `some _` a normal (non-raising) return.
- The injected transport is modelled by recording the calls an operation
  issues: each setter returns `Except FanError (List TransportCall)`,
  where `.error` models a raised exception (issued before any transport
  call, hence with an empty call list) and `.ok calls` the exact sequence
  of transport calls performed. The adapter class has no mutable fields;
  every operation is a pure function of its arguments, which is the
  embedding of its statelessness between calls.
-/

/-- Python runtime values that flow through the adapter. -/
inductive PyVal
  | none
  | bool (b : Bool)
  | int (n : Int)
  | str (s : String)
  deriving DecidableEq, Repr

/-- Python truthiness (`if v:`) for the values above:
None and 0 and the empty string are falsy. -/
def PyVal.truthy : PyVal → Bool
  | .none => false
  | .bool b => b
  | .int n => n != 0
  | .str s => s != ""

/-- Python `==` comparison of a runtime value against an integer literal
(used by `self.data["mode"] == 1`): `True == 1` holds in Python, `None`
and strings never equal an int. -/
def PyVal.eqInt : PyVal → Int → Bool
  | .none, _ => false
  | .bool b, m => (if b then (1 : Int) else 0) == m
  | .int n, m => n == m
  | .str _, _ => false

/-- The Python dict `data` of `FanStatus1C`, modelled by its lookup
function. `Option.none` means the key is absent (subscripting raises
KeyError); `some PyVal.none` means the key is present holding `None`. -/
def PyDict := String → Option PyVal

/-- Dict assignment `d[k] = v` (insert or overwrite). -/
def PyDict.set (d : PyDict) (k : String) (v : PyVal) : PyDict :=
  fun q => if q = k then some v else d q

/-- The empty dict `{}`. -/
def PyDict.empty : PyDict := fun _ => Option.none

/-- `OperationMode` enum imported from the external `miio.fan` library
(values Normal and Nature). -/
inductive OperationMode
  | Normal
  | Nature
  deriving DecidableEq, Repr

/-- `FanException` raised by the adapter's validation (from `miio.fan`). -/
inductive FanError
  | fanException (msg : String)
  deriving DecidableEq, Repr

/-- One call to the injected transport collaborator (`MiotDevice`). -/
inductive TransportCall
  | set_property (name : String) (value : PyVal)
  | get_properties_for_mapping
  deriving DecidableEq, Repr

/-- One entry of the batched response of `get_properties_for_mapping`:
a dict `{"did": ..., "value": ..., "code": ...}` where `did` is the
semantic attribute name the transport echoes back. -/
structure PropResponse where
  did : String
  value : PyVal
  code : Int
  deriving DecidableEq, Repr

/-- The static property-mapping table `_MAPPING` (lines 9-18 of
`fan_1c.py`): attribute name to (siid, piid). -/
def _MAPPING : List (String × Int × Int) :=
  [("power", 2, 1),
   ("fan_level", 2, 2),
   ("child_lock", 3, 1),
   ("swing_mode", 2, 3),
   ("power_off_time", 2, 10),
   ("buzzer", 2, 11),
   ("light", 2, 12),
   ("mode", 2, 7)]

/-- The attribute names of `_MAPPING`. -/
def mappingKeys : List String := _MAPPING.map Prod.fst

/-- Container for status reports (`FanStatus1C`), wrapping the dict
built by `Fan1C.status`. -/
structure FanStatus1C where
  data : PyDict

/-- `power`: `"on" if self.data["power"] else "off"`. -/
def FanStatus1C.power (s : FanStatus1C) : Option String :=
  (s.data "power").map fun v => if v.truthy then "on" else "off"

/-- `is_on`: returns the raw `self.data["power"]` value. -/
def FanStatus1C.is_on (s : FanStatus1C) : Option PyVal :=
  s.data "power"

/-- `mode`: `Nature if self.data["mode"] == 1 else Normal`. -/
def FanStatus1C.mode (s : FanStatus1C) : Option OperationMode :=
  (s.data "mode").map fun v =>
    if v.eqInt 1 then OperationMode.Nature else OperationMode.Normal

/-- `speed`: returns the raw `self.data["fan_level"]` value. -/
def FanStatus1C.speed (s : FanStatus1C) : Option PyVal :=
  s.data "fan_level"

/-- `oscillate`: returns the raw `self.data["swing_mode"]` value. -/
def FanStatus1C.oscillate (s : FanStatus1C) : Option PyVal :=
  s.data "swing_mode"

/-- `delay_off_countdown`: returns the raw `self.data["power_off_time"]`. -/
def FanStatus1C.delay_off_countdown (s : FanStatus1C) : Option PyVal :=
  s.data "power_off_time"

/-- `led`: returns the raw `self.data["light"]` value. -/
def FanStatus1C.led (s : FanStatus1C) : Option PyVal :=
  s.data "light"

/-- `buzzer`: returns the raw `self.data["buzzer"]` value. -/
def FanStatus1C.buzzer (s : FanStatus1C) : Option PyVal :=
  s.data "buzzer"

/-- `child_lock`: returns the raw `self.data["child_lock"]` value. -/
def FanStatus1C.child_lock (s : FanStatus1C) : Option PyVal :=
  s.data "child_lock"

namespace Fan1C

/-- `Fan1C.status`: builds the data dict from the batched transport
response, storing `prop["value"]` when `prop["code"] == 0` and `None`
otherwise, keyed by `prop["did"]`. Total: no exception is raised for a
non-zero status code. -/
def status (props : List PropResponse) : FanStatus1C :=
  ⟨props.foldl
    (fun d p => d.set p.did (if p.code = 0 then p.value else PyVal.none))
    PyDict.empty⟩

/-- `Fan1C.on`: `self.set_property("power", True)`. -/
def «on» : Except FanError (List TransportCall) :=
  .ok [.set_property "power" (.bool true)]

/-- `Fan1C.off`: `self.set_property("power", False)`. -/
def off : Except FanError (List TransportCall) :=
  .ok [.set_property "power" (.bool false)]

/-- `Fan1C.set_direct_speed`: raises `FanException` when the speed is not
in (1, 2, 3), else forwards it as `fan_level`. -/
def set_direct_speed (speed : Int) : Except FanError (List TransportCall) :=
  if ¬(speed = 1 ∨ speed = 2 ∨ speed = 3) then
    .error (.fanException ("Invalid speed: " ++ toString speed))
  else
    .ok [.set_property "fan_level" (.int speed)]

/-- `Fan1C.set_oscillate`: forwards the boolean as `swing_mode`. -/
def set_oscillate (oscillate : Bool) : Except FanError (List TransportCall) :=
  .ok [.set_property "swing_mode" (.bool oscillate)]

/-- `Fan1C.set_buzzer`: forwards the boolean as `buzzer`. -/
def set_buzzer (buzzer : Bool) : Except FanError (List TransportCall) :=
  .ok [.set_property "buzzer" (.bool buzzer)]

/-- `Fan1C.set_child_lock`: forwards the boolean as `child_lock`. -/
def set_child_lock (lock : Bool) : Except FanError (List TransportCall) :=
  .ok [.set_property "child_lock" (.bool lock)]

/-- `Fan1C.set_natural_mode`: forwards `1 if natural else 0` as `mode`. -/
def set_natural_mode (natural : Bool) : Except FanError (List TransportCall) :=
  .ok [.set_property "mode" (.int (if natural then 1 else 0))]

/-- `Fan1C.delay_off`: raises `FanException` when seconds < 0, else
forwards the value as `power_off_time`. -/
def delay_off (seconds : Int) : Except FanError (List TransportCall) :=
  if seconds < 0 then
    .error (.fanException
      ("Invalid value for a delayed turn off: " ++ toString seconds))
  else
    .ok [.set_property "power_off_time" (.int seconds)]

end Fan1C

/-- The transport calls an operation actually issued: none when it raised
before calling the transport. -/
def callsOf : Except FanError (List TransportCall) → List TransportCall
  | .ok l => l
  | .error _ => []

/-- Whether a transport call is a write (`set_property`). -/
def TransportCall.isWrite : TransportCall → Bool
  | .set_property _ _ => true
  | .get_properties_for_mapping => false

/-- Number of transport writes in a call list. -/
def writeCount (l : List TransportCall) : Nat :=
  (l.filter TransportCall.isWrite).length

/-- Number of transport reads in a call list. -/
def readCount (l : List TransportCall) : Nat :=
  (l.filter fun c => !c.isWrite).length

/-- The property name a call writes to, if it is a write. -/
def TransportCall.writeName : TransportCall → Option String
  | .set_property n _ => some n
  | .get_properties_for_mapping => Option.none

/-- The property names written by a call list. -/
def writeNames (l : List TransportCall) : List String :=
  l.filterMap TransportCall.writeName

/-- The attribute-name string literals appearing in the `FanStatus1C`
accessors (lines 32-75 of `fan_1c.py`) and in the `set_property` calls of
the `Fan1C` setters (lines 136-201). -/
def referencedAttributeNames : List String :=
  ["power", "mode", "fan_level", "swing_mode", "power_off_time",
   "light", "buzzer", "child_lock"]

/-- The exact batched response of the round-trip test of the spec:
all status codes 0. -/
def roundTripProps : List PropResponse :=
  [⟨"power", .int 1, 0⟩,
   ⟨"mode", .int 1, 0⟩,
   ⟨"fan_level", .int 2, 0⟩,
   ⟨"swing_mode", .int 0, 0⟩,
   ⟨"power_off_time", .int 120, 0⟩,
   ⟨"light", .int 1, 0⟩,
   ⟨"buzzer", .int 0, 0⟩,
   ⟨"child_lock", .int 1, 0⟩]

/-! ## Helper lemmas -/

theorem PyDict.get_set_self (d : PyDict) (k : String) (v : PyVal) :
    d.set k v k = some v := by
  simp [PyDict.set]

theorem PyDict.get_set_other (d : PyDict) (k q : String) (v : PyVal)
    (h : q ≠ k) : d.set k v q = d q := by
  simp [PyDict.set, h]

theorem status_fold_notmem (props : List PropResponse) (d : PyDict)
    (k : String) (h : k ∉ props.map PropResponse.did) :
    props.foldl
      (fun d p => d.set p.did (if p.code = 0 then p.value else PyVal.none))
      d k = d k := by
  induction props generalizing d with
  | nil => rfl
  | cons q rest ih =>
    simp only [List.map_cons, List.mem_cons, not_or] at h
    simp only [List.foldl_cons]
    rw [ih _ h.2, PyDict.get_set_other _ _ _ _ h.1]

theorem status_fold_mem (props : List PropResponse) (d : PyDict)
    (p : PropResponse) (hp : p ∈ props)
    (hn : (props.map PropResponse.did).Nodup) :
    props.foldl
      (fun d p => d.set p.did (if p.code = 0 then p.value else PyVal.none))
      d p.did = some (if p.code = 0 then p.value else PyVal.none) := by
  induction props generalizing d with
  | nil => cases hp
  | cons q rest ih =>
    simp only [List.map_cons, List.nodup_cons] at hn
    simp only [List.foldl_cons]
    rcases List.mem_cons.1 hp with hq | hrest
    · subst hq
      have hnot : p.did ∉ rest.map PropResponse.did := hn.1
      rw [status_fold_notmem rest _ _ hnot, PyDict.get_set_self]
    · exact ih _ hrest hn.2

theorem set_direct_speed_valid (speed : Int)
    (h : speed = 1 ∨ speed = 2 ∨ speed = 3) :
    Fan1C.set_direct_speed speed =
      .ok [.set_property "fan_level" (.int speed)] := by
  unfold Fan1C.set_direct_speed
  rw [if_neg (not_not_intro h)]

theorem set_direct_speed_invalid (speed : Int)
    (h : ¬(speed = 1 ∨ speed = 2 ∨ speed = 3)) :
    Fan1C.set_direct_speed speed =
      .error (.fanException ("Invalid speed: " ++ toString speed)) := by
  unfold Fan1C.set_direct_speed
  rw [if_pos h]

theorem delay_off_nonneg (seconds : Int) (h : 0 ≤ seconds) :
    Fan1C.delay_off seconds =
      .ok [.set_property "power_off_time" (.int seconds)] := by
  unfold Fan1C.delay_off
  rw [if_neg (not_lt.2 h)]

theorem delay_off_neg (seconds : Int) (h : seconds < 0) :
    Fan1C.delay_off seconds =
      .error (.fanException
        ("Invalid value for a delayed turn off: " ++ toString seconds)) := by
  unfold Fan1C.delay_off
  rw [if_pos h]

/-! ## Claim theorems -/

/-- C1: the status query on the raw values {power:1, mode:1, fan_level:2,
swing_mode:0, power_off_time:120, light:1, buzzer:0, child_lock:1} with
all status codes 0 yields a snapshot reporting power "on", operation mode
Nature, speed level 2, oscillation disabled (raw 0, falsy), power-off
countdown 120 seconds, LED enabled, buzzer disabled, child lock enabled. -/
theorem status_round_trip :
    (Fan1C.status roundTripProps).power = some "on"
    ∧ (Fan1C.status roundTripProps).mode = some OperationMode.Nature
    ∧ (Fan1C.status roundTripProps).speed = some (PyVal.int 2)
    ∧ ((Fan1C.status roundTripProps).oscillate).map PyVal.truthy = some false
    ∧ (Fan1C.status roundTripProps).delay_off_countdown = some (PyVal.int 120)
    ∧ ((Fan1C.status roundTripProps).led).map PyVal.truthy = some true
    ∧ ((Fan1C.status roundTripProps).buzzer).map PyVal.truthy = some false
    ∧ ((Fan1C.status roundTripProps).child_lock).map PyVal.truthy
        = some true := by
  decide

/-- C2: `set_direct_speed` forwards a speed in {1,2,3} as exactly one
`fan_level` write and raises no error; for any other integer it raises
`FanException` and issues zero transport calls. -/
theorem set_direct_speed_validation (speed : Int) :
    ((speed = 1 ∨ speed = 2 ∨ speed = 3) →
      Fan1C.set_direct_speed speed =
        .ok [.set_property "fan_level" (.int speed)])
    ∧ (¬(speed = 1 ∨ speed = 2 ∨ speed = 3) →
      Fan1C.set_direct_speed speed =
        .error (.fanException ("Invalid speed: " ++ toString speed))
      ∧ callsOf (Fan1C.set_direct_speed speed) = []) := by
  refine ⟨fun h => set_direct_speed_valid speed h, fun h => ?_⟩
  have he := set_direct_speed_invalid speed h
  exact ⟨he, by rw [he]; rfl⟩

/-- Witness for C2 at speed 2 (valid) and speed 0 (invalid). -/
theorem set_direct_speed_validation_witness :
    Fan1C.set_direct_speed 2 = .ok [.set_property "fan_level" (.int 2)]
    ∧ Fan1C.set_direct_speed 0 =
        .error (.fanException ("Invalid speed: " ++ toString (0 : Int))) :=
  ⟨(set_direct_speed_validation 2).1 (Or.inr (Or.inl rfl)),
   ((set_direct_speed_validation 0).2 (by decide)).1⟩

/-- C3: `delay_off` raises `FanException` with zero transport calls when
seconds < 0, and forwards seconds ≥ 0 as one `power_off_time` write. -/
theorem delay_off_validation (seconds : Int) :
    (seconds < 0 →
      Fan1C.delay_off seconds =
        .error (.fanException
          ("Invalid value for a delayed turn off: " ++ toString seconds))
      ∧ callsOf (Fan1C.delay_off seconds) = [])
    ∧ (0 ≤ seconds →
      Fan1C.delay_off seconds =
        .ok [.set_property "power_off_time" (.int seconds)]) := by
  refine ⟨fun h => ?_, fun h => delay_off_nonneg seconds h⟩
  have he := delay_off_neg seconds h
  exact ⟨he, by rw [he]; rfl⟩

/-- Witness for C3 at seconds 120 (valid) and seconds -1 (invalid). -/
theorem delay_off_validation_witness :
    Fan1C.delay_off 120 = .ok [.set_property "power_off_time" (.int 120)]
    ∧ Fan1C.delay_off (-1) =
        .error (.fanException
          ("Invalid value for a delayed turn off: " ++ toString (-1 : Int))) :=
  ⟨(delay_off_validation 120).2 (by decide),
   ((delay_off_validation (-1)).1 (by decide)).1⟩

/-- A batched response in which the `light` property failed (non-zero
status code) while `power` succeeded. -/
def partialProps : List PropResponse :=
  [⟨"power", .int 1, 0⟩, ⟨"light", .int 1, -4⟩]

/-- C4: the status query is a total function (no exception on a non-zero
status code); every response entry whose status code is 0 is stored in the
snapshot dict under its semantic name with its reported value, and every
entry with a non-zero code is recorded as the absent sentinel `None`
(assuming the transport returns each property name at most once). -/
theorem status_partial_failure (props : List PropResponse)
    (p : PropResponse) (hp : p ∈ props)
    (hn : (props.map PropResponse.did).Nodup) :
    (Fan1C.status props).data p.did =
      some (if p.code = 0 then p.value else PyVal.none) :=
  status_fold_mem props PyDict.empty p hp hn

/-- Witness for C4: in `partialProps` the failed `light` entry is recorded
as `None` while the successful `power` entry keeps its value. -/
theorem status_partial_failure_witness :
    (Fan1C.status partialProps).data "light" = some PyVal.none
    ∧ (Fan1C.status partialProps).data "power" = some (PyVal.int 1) := by
  constructor
  · have h := status_partial_failure partialProps
      (⟨"light", .int 1, -4⟩ : PropResponse) (by decide) (by decide)
    simpa using h
  · have h := status_partial_failure partialProps
      (⟨"power", .int 1, 0⟩ : PropResponse) (by decide) (by decide)
    simpa using h

/-- C5: `set_natural_mode` forwards `mode` = 1 for input true and
`mode` = 0 for input false, covering every boolean input. -/
theorem set_natural_mode_encoding :
    Fan1C.set_natural_mode true = .ok [.set_property "mode" (.int 1)]
    ∧ Fan1C.set_natural_mode false = .ok [.set_property "mode" (.int 0)] :=
  ⟨rfl, rfl⟩

/-- C6: `on` issues exactly one transport write setting `power` to True,
and `off` issues exactly one transport write setting `power` to False. -/
theorem power_on_off_calls :
    Fan1C.«on» = .ok [.set_property "power" (.bool true)]
    ∧ Fan1C.off = .ok [.set_property "power" (.bool false)]
    ∧ writeCount (callsOf Fan1C.«on») = 1
    ∧ writeCount (callsOf Fan1C.off) = 1 :=
  ⟨rfl, rfl, rfl, rfl⟩

/-- C7: every setter (on, off, set_oscillate, set_buzzer, set_child_lock,
set_natural_mode, and set_direct_speed / delay_off on inputs passing
validation) issues exactly one transport write and no transport read; the
setters are pure functions of their arguments alone, embedding the
adapter's statelessness between calls. -/
theorem setters_one_write_no_read :
    (writeCount (callsOf Fan1C.«on») = 1
      ∧ readCount (callsOf Fan1C.«on») = 0)
    ∧ (writeCount (callsOf Fan1C.off) = 1
      ∧ readCount (callsOf Fan1C.off) = 0)
    ∧ (∀ b : Bool, writeCount (callsOf (Fan1C.set_oscillate b)) = 1
      ∧ readCount (callsOf (Fan1C.set_oscillate b)) = 0)
    ∧ (∀ b : Bool, writeCount (callsOf (Fan1C.set_buzzer b)) = 1
      ∧ readCount (callsOf (Fan1C.set_buzzer b)) = 0)
    ∧ (∀ b : Bool, writeCount (callsOf (Fan1C.set_child_lock b)) = 1
      ∧ readCount (callsOf (Fan1C.set_child_lock b)) = 0)
    ∧ (∀ b : Bool, writeCount (callsOf (Fan1C.set_natural_mode b)) = 1
      ∧ readCount (callsOf (Fan1C.set_natural_mode b)) = 0)
    ∧ (∀ speed : Int, (speed = 1 ∨ speed = 2 ∨ speed = 3) →
      writeCount (callsOf (Fan1C.set_direct_speed speed)) = 1
      ∧ readCount (callsOf (Fan1C.set_direct_speed speed)) = 0)
    ∧ (∀ seconds : Int, 0 ≤ seconds →
      writeCount (callsOf (Fan1C.delay_off seconds)) = 1
      ∧ readCount (callsOf (Fan1C.delay_off seconds)) = 0) := by
  refine ⟨⟨rfl, rfl⟩, ⟨rfl, rfl⟩, fun b => ⟨rfl, rfl⟩, fun b => ⟨rfl, rfl⟩,
    fun b => ⟨rfl, rfl⟩, fun b => ⟨rfl, rfl⟩, fun s hs => ?_, fun s hs => ?_⟩
  · rw [set_direct_speed_valid s hs]
    exact ⟨rfl, rfl⟩
  · rw [delay_off_nonneg s hs]
    exact ⟨rfl, rfl⟩

/-- Witness for C7 at the validated inputs speed 3 and seconds 120. -/
theorem setters_one_write_no_read_witness :
    writeCount (callsOf (Fan1C.set_direct_speed 3)) = 1
    ∧ readCount (callsOf (Fan1C.delay_off 120)) = 0 :=
  ⟨(setters_one_write_no_read.2.2.2.2.2.2.1 3 (Or.inr (Or.inr rfl))).1,
   (setters_one_write_no_read.2.2.2.2.2.2.2 120 (by decide)).2⟩

/-- C8: for a snapshot whose raw `mode` value is the integer v, the
derived operation mode is Nature exactly when v = 1, and Normal for every
other integer. -/
theorem mode_nature_iff (d : PyDict) (v : Int)
    (h : d "mode" = some (PyVal.int v)) :
    (FanStatus1C.mode ⟨d⟩ = some OperationMode.Nature ↔ v = 1)
    ∧ (v ≠ 1 → FanStatus1C.mode ⟨d⟩ = some OperationMode.Normal) := by
  have hm : FanStatus1C.mode ⟨d⟩ =
      some (if v = 1 then OperationMode.Nature else OperationMode.Normal) := by
    simp [FanStatus1C.mode, h, PyVal.eqInt]
  by_cases hv : v = 1
  · simp [hm, hv]
  · simp [hm, hv]

/-- Witness for C8 at raw mode value 5, which is not 1. -/
theorem mode_nature_iff_witness :
    FanStatus1C.mode ⟨PyDict.empty.set "mode" (PyVal.int 5)⟩ =
      some OperationMode.Normal :=
  (mode_nature_iff _ 5 rfl).2 (by decide)

/-- C9: every attribute name referenced by the snapshot accessors and the
setters is a key of the static `_MAPPING` table, whose keys are pairwise
distinct so each carries one fixed (siid, piid) pair; moreover every
property name any setter ever writes belongs to the table. -/
theorem mapping_covers_references :
    referencedAttributeNames.all (fun n => mappingKeys.contains n) = true
    ∧ mappingKeys.Nodup
    ∧ (writeNames (callsOf Fan1C.«on»)).all
        (fun n => mappingKeys.contains n) = true
    ∧ (writeNames (callsOf Fan1C.off)).all
        (fun n => mappingKeys.contains n) = true
    ∧ (∀ b : Bool, (writeNames (callsOf (Fan1C.set_oscillate b))).all
        (fun n => mappingKeys.contains n) = true)
    ∧ (∀ b : Bool, (writeNames (callsOf (Fan1C.set_buzzer b))).all
        (fun n => mappingKeys.contains n) = true)
    ∧ (∀ b : Bool, (writeNames (callsOf (Fan1C.set_child_lock b))).all
        (fun n => mappingKeys.contains n) = true)
    ∧ (∀ b : Bool, (writeNames (callsOf (Fan1C.set_natural_mode b))).all
        (fun n => mappingKeys.contains n) = true)
    ∧ (∀ speed : Int, (writeNames (callsOf (Fan1C.set_direct_speed speed))).all
        (fun n => mappingKeys.contains n) = true)
    ∧ (∀ seconds : Int, (writeNames (callsOf (Fan1C.delay_off seconds))).all
        (fun n => mappingKeys.contains n) = true) := by
  refine ⟨by decide, by decide, rfl, rfl, fun b => rfl, fun b => rfl,
    fun b => rfl, fun b => rfl, fun s => ?_, fun s => ?_⟩
  · by_cases h : s = 1 ∨ s = 2 ∨ s = 3
    · rw [set_direct_speed_valid s h]
      rfl
    · rw [set_direct_speed_invalid s h]
      rfl
  · by_cases h : s < 0
    · rw [delay_off_neg s h]
      rfl
    · rw [delay_off_nonneg s (not_lt.1 h)]
      rfl

/-- C10: on a snapshot whose `power` and `mode` raw values are the absent
sentinel `None`, the accessors return normally (no exception): `power`
yields "off", `is_on` yields the falsy `None`, and `mode` yields Normal. -/
theorem absent_value_defaults (d : PyDict)
    (hp : d "power" = some PyVal.none) (hm : d "mode" = some PyVal.none) :
    FanStatus1C.power ⟨d⟩ = some "off"
    ∧ FanStatus1C.is_on ⟨d⟩ = some PyVal.none
    ∧ PyVal.truthy PyVal.none = false
    ∧ FanStatus1C.mode ⟨d⟩ = some OperationMode.Normal := by
  refine ⟨?_, ?_, rfl, ?_⟩
  · simp [FanStatus1C.power, hp, PyVal.truthy]
  · simp [FanStatus1C.is_on, hp]
  · simp [FanStatus1C.mode, hm, PyVal.eqInt]

/-- Witness for C10 on a dict holding `None` for both `power` and `mode`. -/
theorem absent_value_defaults_witness :
    FanStatus1C.power
      ⟨(PyDict.empty.set "power" PyVal.none).set "mode" PyVal.none⟩
      = some "off" :=
  (absent_value_defaults _ rfl rfl).1
